import Mathlib

/-!
Verification of the spyderisk-python object model against its specification.

The development shallowly embeds the parts of the code that the claims are
about:

* `src/spyderisk/core_model.py` — the predicate/type registry (URI constants);
* `src/spyderisk/risk_vector.py` — the `RiskVector` class;
* `src/spyderisk/domain_model.py` — `DomainModel.is_asset`, entity `label` /
  `comment` accessors, `Asset.label`, `Threat.short_description` /
  `long_description`, and the cached per-kind factories;
* `src/spyderisk/system_model.py` — `SystemModel.check_domain_match`,
  `get_entity`, `Threat._get_threat_comment` / `description`,
  `Threat.likelihood_level_*` / `risk_level_*`, `Threat.control_strategies`,
  and the cached per-kind factories.

RDF graphs are embedded as lists of string triples; rdflib's `value`,
`objects`, `subjects` and membership operations become first-match / filter
operations over that list.  Python dictionaries (which preserve insertion
order) are embedded as association lists with the same first-match lookup.
A Python function that can raise is embedded with `Option`/`Except`, the
error value standing for the raised exception; the doc comment of each such
definition says which exception the error value denotes.
-/

namespace Spyderisk

/-! ## Graph model (rdflib operations used by the code) -/

/-- An RDF triple (subject, predicate, object), all components opaque URI or
literal strings. -/
structure Triple where
  s : String
  p : String
  o : String
deriving DecidableEq, Repr

/-- A graph is the list of its triples.  `ConjunctiveGraph` union of named
graphs is flattened into one list, matching how the code queries `self`. -/
structure Graph where
  triples : List Triple
deriving DecidableEq, Repr

/-- Membership test `(s, p, o) in graph`. -/
def Graph.mem3 (g : Graph) (s p o : String) : Bool :=
  g.triples.any fun t => t.s == s && t.p == p && t.o == o

/-- rdflib `value(subject, predicate)`: the object of the first matching
triple, or `None`. -/
def Graph.value (g : Graph) (s p : String) : Option String :=
  (g.triples.find? fun t => t.s == s && t.p == p).map Triple.o

/-- rdflib `value(subject, predicate)` where the subject argument may be
`None`; rdflib then treats the subject position as a wildcard. -/
def Graph.valueW (g : Graph) (s? : Option String) (p : String) : Option String :=
  (g.triples.find? fun t =>
      (match s? with
       | none => true
       | some s => t.s == s) && t.p == p).map Triple.o

/-- rdflib `objects(subject, predicate)`: objects of all matching triples in
graph order. -/
def Graph.objects (g : Graph) (s p : String) : List String :=
  (g.triples.filter fun t => t.s == s && t.p == p).map Triple.o

/-- rdflib `subjects(predicate, object)`: subjects of all matching triples in
graph order. -/
def Graph.subjects (g : Graph) (p o : String) : List String :=
  (g.triples.filter fun t => t.p == p && t.o == o).map Triple.s

/-! ## Predicate/type registry (src/spyderisk/core_model.py) -/

/-- `GRAPH['core']` in core_model.py. -/
def coreNS : String := "http://it-innovation.soton.ac.uk/ontologies/trustworthiness/core"

/-- `PREDICATE['type']` (rdf:type). -/
def predType : String := "http://www.w3.org/1999/02/22-rdf-syntax-ns#type"

/-- `PREDICATE['comment']` (rdfs:comment). -/
def predComment : String := "http://www.w3.org/2000/01/rdf-schema#comment"

/-- `PREDICATE['label']` (rdfs:label). -/
def predLabel : String := "http://www.w3.org/2000/01/rdf-schema#label"

/-- `OWL.Ontology`. -/
def owlOntology : String := "http://www.w3.org/2002/07/owl#Ontology"

/-- `PREDICATE['blocks']`. -/
def predBlocks : String := coreNS ++ "#blocks"

/-- `PREDICATE['mitigates']`. -/
def predMitigates : String := coreNS ++ "#mitigates"

/-- `PREDICATE['has_prior']`. -/
def predHasPrior : String := coreNS ++ "#hasPrior"

/-- `PREDICATE['has_risk']`. -/
def predHasRisk : String := coreNS ++ "#hasRisk"

/-- Modelled from the spec: `PREDICATE['domain_version']` is referenced by
`SystemModel.domain_version` but the entry is missing from the registry in
src/core_model.py; the spec calls it "the system graph's recorded
`domain_version` literal".  Following the registry's naming convention we
model it as a core-namespace URI; the theorems treat it as opaque. -/
def predDomainVersion : String := coreNS ++ "#domainVersion"

/-- Modelled from the spec: `PREDICATE['version_info']` is referenced by
`DomainModel.version_info` but the entry is missing from the registry in
src/core_model.py; the spec calls it "the attached Domain Model's
`version_info`".  Modelled as the standard OWL version-info URI; the
theorems treat it as opaque. -/
def predVersionInfo : String := "http://www.w3.org/2002/07/owl#versionInfo"

/-- `OBJECT['asset']` (owl:Class). -/
def objAsset : String := "http://www.w3.org/2002/07/owl#Class"

/-- `OBJECT['control_set']`. -/
def objControlSet : String := coreNS ++ "#ControlSet"

/-- `OBJECT['control_strategy']`. -/
def objControlStrategy : String := coreNS ++ "#ControlStrategy"

/-- `OBJECT['misbehaviour_set']`. -/
def objMisbehaviourSet : String := coreNS ++ "#MisbehaviourSet"

/-- `OBJECT['threat']`. -/
def objThreat : String := coreNS ++ "#Threat"

/-- `OBJECT['trustworthiness_attribute_set']`. -/
def objTrustworthinessAttributeSet : String := coreNS ++ "#TrustworthinessAttributeSet"

/-- Modelled from the spec: `OBJECT['cardinality_constraint']` is referenced
by `SystemModel.get_entity` but the entry is missing from the registry in
src/core_model.py; spec section 3 names the kind "Relation (a.k.a.
CardinalityConstraint type)", so we model the identifier following the
registry's core-namespace naming convention; the theorems treat it as
opaque. -/
def objCardinalityConstraint : String := coreNS ++ "#CardinalityConstraint"

/-! ## Association lists (Python dict, insertion-ordered) -/

/-- First-match lookup in an association list (Python `dict[key]` /
`dict.get`). -/
def alookup {β : Type} : List (String × β) → String → Option β
  | [], _ => none
  | kv :: rest, k => if kv.1 = k then some kv.2 else alookup rest k

/-- Python `dict.get(key, default)`. -/
def dictGet (d : List (String × Int)) (k : String) (dflt : Int) : Int :=
  (alookup d k).getD dflt

/-! ## RiskVector (src/spyderisk/risk_vector.py) -/

/-- `RiskVector._normalise_dict`: rebuilds the dict with `str(key)` keys.
Our keys are already strings, so this is the identity map written out. -/
def normaliseDict (d : List (String × Int)) : List (String × Int) :=
  d.map fun kv => (kv.1, kv.2)

/-- Stable insertion into a descending-by-value list: the new element goes
before the first strictly smaller value, after equal values already
present.  Together with `sortDescByValue` this reproduces Python
`sorted(items, key=value, reverse=True)` (a stable descending sort). -/
def insDesc (x : String × Int) : List (String × Int) → List (String × Int)
  | [] => [x]
  | y :: ys => if x.2 > y.2 then x :: y :: ys else y :: insDesc x ys

/-- `RiskVector._sort_dict`: stable sort of the items by value, descending. -/
def sortDescByValue (l : List (String × Int)) : List (String × Int) :=
  l.foldr insDesc []

/-- Stable insertion into an ascending-by-value list. Together with
`sortAscByValue` this reproduces Python `sorted(items, key=value)`. -/
def insAsc (x : String × Int) : List (String × Int) → List (String × Int)
  | [] => [x]
  | y :: ys => if x.2 < y.2 then x :: y :: ys else y :: insAsc x ys

/-- The ascending stable sort used by `RiskVector._compare`. -/
def sortAscByValue (l : List (String × Int)) : List (String × Int) :=
  l.foldr insAsc []

/-- The state built by `RiskVector.__init__`: the normalised count dict, the
normalised rank dict, and the rank dict pre-sorted descending. -/
structure RiskVector where
  risk_dict : List (String × Int)
  risk_levels : List (String × Int)
  sorted_levels : List (String × Int)
deriving DecidableEq, Repr

/-- `RiskVector.__init__(risk_dict, risk_levels)`.  Note: the constructor
performs no key-set comparison of any kind; it normalises both dicts,
pre-sorts the ranks, and returns. -/
def mkRiskVector (risk_dict risk_levels : List (String × Int)) : RiskVector :=
  ⟨normaliseDict risk_dict, normaliseDict risk_levels,
   sortDescByValue (normaliseDict risk_levels)⟩

/-- `{**self.risk_levels, **other.risk_levels}`: keys of the first dict in
order, values overridden by the second dict where present, followed by the
second dict's new keys in its order. -/
def mergeDicts (a b : List (String × Int)) : List (String × Int) :=
  (a.map fun kv => (kv.1, (alookup b kv.1).getD kv.2))
    ++ b.filter fun kv => (alookup a kv.1).isNone

/-- The scan loop of `RiskVector._compare`: walk the sorted levels and return
true at the first key whose counts satisfy the operator ('gt' or 'lt'),
missing keys counting as 0; false if the walk ends. -/
def compareScan (a b : RiskVector) (op : String) : List (String × Int) → Bool
  | [] => false
  | kv :: rest =>
    if op = "gt" ∧ dictGet a.risk_dict kv.1 0 > dictGet b.risk_dict kv.1 0 then true
    else if op = "lt" ∧ dictGet a.risk_dict kv.1 0 < dictGet b.risk_dict kv.1 0 then true
    else compareScan a b op rest

/-- `RiskVector._compare(other, operator)`. -/
def RiskVector.compareOp (a b : RiskVector) (op : String) : Bool :=
  compareScan a b op (sortAscByValue (mergeDicts a.risk_levels b.risk_levels))

/-- `RiskVector.__gt__`. -/
def RiskVector.gtB (a b : RiskVector) : Bool := a.compareOp b "gt"

/-- `RiskVector.__lt__`. -/
def RiskVector.ltB (a b : RiskVector) : Bool := a.compareOp b "lt"

/-- `RiskVector.overall_level`: `None` for an empty rank dict, else the key
of the first (highest-rank) entry of the pre-sorted rank list. -/
def RiskVector.overall_level (rv : RiskVector) : Option String :=
  if rv.risk_levels.isEmpty then none
  else rv.sorted_levels.head?.map Prod.fst

/-! ## Domain and system model construction (system_model.py, domain_model.py) -/

/-- `next(self.subjects(RDF.type, OWL.Ontology), None)`: first subject typed
as an OWL ontology. -/
def ontologyUri (g : Graph) : Option String :=
  (g.subjects predType owlOntology).head?

/-- `SystemModel.domain_version`: `value(ontology_uri, domain_version)`. -/
def systemDomainVersion (sys : Graph) : Option String :=
  sys.valueW (ontologyUri sys) predDomainVersion

/-- `DomainModel.version_info`: `value(ontology_uri, version_info)`. -/
def domainVersionInfo (dom : Graph) : Option String :=
  dom.valueW (ontologyUri dom) predVersionInfo

/-- The exceptions raised by the embedded code.  `domainVersionMismatch`
stands for the `ValueError("Domain model version mismatch! ...")` raised in
`SystemModel.check_domain_match`; `unknownEntity` stands for the
`KeyError(uriref)` raised at the end of `SystemModel.get_entity`. -/
inductive SpyError where
  | domainVersionMismatch (expected found : Option String)
  | unknownEntity (uriref : String)
deriving DecidableEq, Repr

/-- A constructed system model: the system graph with its attached domain
graph.  Produced only by `mkSystemModel`. -/
structure SystemModel where
  system : Graph
  domain : Graph
deriving DecidableEq, Repr

/-- `SystemModel.check_domain_match`: raises when the domain model's
`version_info` differs from the system graph's recorded `domain_version`. -/
def checkDomainMatch (sys dom : Graph) : Except SpyError Unit :=
  if domainVersionInfo dom ≠ systemDomainVersion sys then
    .error (.domainVersionMismatch (systemDomainVersion sys) (domainVersionInfo dom))
  else .ok ()

/-- The tail of `SystemModel.__init__`: after parsing and attaching the
domain model it calls `check_domain_match`; an exception there propagates
out of the constructor, so no model object is returned. -/
def mkSystemModel (sys dom : Graph) : Except SpyError SystemModel :=
  match checkDomainMatch sys dom with
  | .error e => .error e
  | .ok _ => .ok ⟨sys, dom⟩

/-! ## Entity dispatch (SystemModel.get_entity, DomainModel.is_asset) -/

/-- The system entity wrapper kinds `get_entity` can return; each wraps the
classified identifier. -/
inductive SystemEntity where
  | misbehaviourSet (uriref : String)
  | threat (uriref : String)
  | relation (uriref : String)
  | controlStrategy (uriref : String)
  | trustworthinessAttributeSet (uriref : String)
  | controlSet (uriref : String)
  | asset (uriref : String)
deriving DecidableEq, Repr

/-- `DomainModel.is_asset(uriref)`: `(uriref, type, OBJECT['asset']) in self`. -/
def isAsset (dom : Graph) (uriref : String) : Bool :=
  dom.mem3 uriref predType objAsset

/-- `DomainModel.is_asset` applied to the possibly-`None` result of
`next(objects(...), None)`; a `None` subject is in no triple. -/
def isAssetOpt (dom : Graph) (o : Option String) : Bool :=
  match o with
  | none => false
  | some s => isAsset dom s

/-- `SystemModel.get_entity(uriref)`: ordered type-membership dispatch, then
the domain-asset-class fallback, then `KeyError`. -/
def getEntity (sys dom : Graph) (u : String) : Except SpyError SystemEntity :=
  if sys.mem3 u predType objMisbehaviourSet then .ok (.misbehaviourSet u)
  else if sys.mem3 u predType objThreat then .ok (.threat u)
  else if sys.mem3 u predType objCardinalityConstraint then .ok (.relation u)
  else if sys.mem3 u predType objControlStrategy then .ok (.controlStrategy u)
  else if sys.mem3 u predType objTrustworthinessAttributeSet then .ok (.trustworthinessAttributeSet u)
  else if sys.mem3 u predType objControlSet then .ok (.controlSet u)
  else if isAssetOpt dom (sys.objects u predType).head? then .ok (.asset u)
  else .error (.unknownEntity u)

/-! ## Threat comments (system_model.Threat, domain_model.Threat) -/

/-- One step of the quote parity kept by `_get_threat_comment`'s loop: a
double quote flips the "even number of quotes seen" flag. -/
def toggleQuote (c : Char) (b : Bool) : Bool :=
  if c = '"' then !b else b

/-- The `while` loop of `Threat._get_threat_comment`, relative form: with
`b` the current "quotes seen so far is even" flag, return the offset of the
first stopping position (a colon seen with even quote parity), or `none`
when the loop runs off the end of the string (Python: `IndexError`). -/
def scanAux (b : Bool) : List Char → Option Nat
  | [] => none
  | c :: cs =>
    if c = ':' ∧ b = true then some 0
    else (scanAux (toggleQuote c b) cs).map (· + 1)

/-- `Threat._get_threat_comment` applied to a present comment string:
`comment[0:char_index]` for the index found by the scan; `none` stands for
the `IndexError` raised when no unquoted colon exists. -/
def getThreatComment (s : String) : Option String :=
  (scanAux true s.data).map fun i => String.mk (s.data.take i)

/-- `Threat._get_threat_comment(self)` (system_model.py): looks the comment
up in the system graph, returns the literal `"****"` when it is missing,
else scans for the first unquoted colon. -/
def threatCommentShort (sys : Graph) (u : String) : Option String :=
  match sys.value u predComment with
  | none => some "****"
  | some c => getThreatComment c

/-- Python `str.isspace` characters relevant to `str.strip()`. -/
def pyIsSpace (c : Char) : Bool :=
  c = ' ' ∨ c = '\t' ∨ c = '\n' ∨ c = '\r' ∨ c = '\x0b' ∨ c = '\x0c'

/-- Python `str.strip()`: drop whitespace from both ends. -/
def pyStrip (s : String) : String :=
  String.mk (((s.data.dropWhile pyIsSpace).reverse.dropWhile pyIsSpace).reverse)

/-- `comment[0].upper() + comment[1:]`; `none` stands for the `IndexError`
raised on an empty string. -/
def upperFirst (s : String) : Option String :=
  match s.data with
  | [] => none
  | c :: cs => some (String.mk (c.toUpper :: cs))

/-- The body of system `Threat.description` applied to a present comment
string: drop the short comment and the colon, strip, uppercase the first
letter.  The scan index equals the short comment's length. -/
def descFromComment (c : String) : Option String :=
  match scanAux true c.data with
  | none => none
  | some i => upperFirst (pyStrip (String.mk (c.data.drop (i + 1))))

/-- System `Threat.description`: `none` also when the comment triple is
missing (Python then slices `None` and raises `TypeError`). -/
def threatDescription (sys : Graph) (u : String) : Option String :=
  match sys.value u predComment with
  | none => none
  | some c => descFromComment c

/-- Domain `Entity.comment`: graph lookup, with falsy values (missing or
empty literal) turned into `None`. -/
def domainEntityComment (dom : Graph) (u : String) : Option String :=
  match dom.value u predComment with
  | none => none
  | some c => if c = "" then none else some c

/-- Python `comment.split(':', 1)[0]`: everything before the first colon
(the whole string when there is none). -/
def splitColonHead (s : String) : String :=
  String.mk (s.data.takeWhile fun c => c ≠ ':')

/-- Python `comment.split(':', 1)[-1]`: everything after the first colon,
or the whole string when there is none. -/
def splitColonTail (s : String) : String :=
  if s.data.any (fun c => c = ':') then
    String.mk ((s.data.dropWhile fun c => c ≠ ':').drop 1)
  else s

/-- Domain `Threat.short_description`: `comment.split(':', 1)[0].strip()`;
`none` stands for the `AttributeError` raised when the comment is `None`. -/
def domainShortDescription (dom : Graph) (u : String) : Option String :=
  (domainEntityComment dom u).map fun c => pyStrip (splitColonHead c)

/-- Domain `Threat.long_description`: `comment.split(':', 1)[-1].strip()`
with the first letter uppercased; `none` stands for the `AttributeError`
(comment `None`) or `IndexError` (empty remainder) cases. -/
def domainLongDescription (dom : Graph) (u : String) : Option String :=
  match domainEntityComment dom u with
  | none => none
  | some c => upperFirst (pyStrip (splitColonTail c))

/-- The claim's reading of the split point, stated independently of the scan
loop: position `j` of `cs` holds a colon and the number of double quotes
strictly before it agrees with parity flag `b` (`b = true` meaning an even
number, the state at the start of the scan). -/
def okColonAt (cs : List Char) (b : Bool) (j : Nat) : Bool :=
  decide (cs.get? j = some ':') && (decide ((cs.take j).count '"' % 2 = 0) == b)

/-- The claim's split point: the first position holding an unquoted colon
(even number of double quotes strictly before it), found by searching the
positions in order — defined by search over indices, independently of the
scan loop's state. -/
def firstUnquotedColon (cs : List Char) : Option Nat :=
  (List.range cs.length).find? fun j => okColonAt cs true j

/-! ## Asset label fallback (domain_model.Asset.label) -/

/-- Domain `Entity.label`: graph lookup, with falsy values (missing or empty
literal) turned into `None`. -/
def domainEntityLabel (dom : Graph) (u : String) : Option String :=
  match dom.value u predLabel with
  | none => none
  | some l => if l = "" then none else some l

/-- Python `uriref.split("/")[-1]`: the characters after the last slash (the
whole string when there is no slash). -/
def lastSegment (s : String) : String :=
  String.mk ((s.data.reverse.takeWhile fun c => c ≠ '/').reverse)

/-- Domain `Asset.label`: the entity label when present, else the trailing
segment of the identifier after the last slash. -/
def assetLabel (dom : Graph) (u : String) : String :=
  match domainEntityLabel dom u with
  | none => lastSegment u
  | some l => l

/-! ## Threat.control_strategies (system_model.py) -/

/-- Modelled from the spec: `ControlStrategy.is_future_risk_csg`,
`is_current_risk_csg` and `has_inactive_contingency_plan` are read by
`Threat.control_strategies` but are not defined anywhere under src; the
spec describes them as flags of the resolved strategy ("flagged as a
future-risk strategy", "strategies with an inactive contingency plan").
We model them as an abstract boolean assignment on strategy identifiers. -/
structure CsgFlags where
  is_future_risk_csg : String → Bool
  is_current_risk_csg : String → Bool
  has_inactive_contingency_plan : String → Bool

/-- `Threat.control_strategies(future_risk=None)`: the `if`/`elif` chain of
the source, selecting strategy identifiers (the code wraps each in a cached
`ControlStrategy` object; selection is on identifiers). -/
def controlStrategies (sys : Graph) (fl : CsgFlags) (threat : String)
    (futureRisk : Option Bool) : List String :=
  if futureRisk = some true ∨ futureRisk = none then
    (sys.subjects predBlocks threat ++ sys.subjects predMitigates threat).filter
      fl.is_future_risk_csg
  else if futureRisk = some false ∨ futureRisk = none then
    (sys.subjects predBlocks threat).filter fun c =>
      fl.is_current_risk_csg c && !fl.has_inactive_contingency_plan c
  else []

/-- The claim's future-risk branch, in the spec's words: union of `blocks`
and `mitigates` subjects, keeping strategies flagged as future-risk. -/
def claimFutureBranch (sys : Graph) (fl : CsgFlags) (threat : String) : List String :=
  (sys.subjects predBlocks threat ++ sys.subjects predMitigates threat).filter
    fl.is_future_risk_csg

/-- The claim's current-risk branch, in the spec's words: `blocks` subjects
only, keeping current-risk strategies without an inactive contingency
plan. -/
def claimCurrentBranch (sys : Graph) (fl : CsgFlags) (threat : String) : List String :=
  (sys.subjects predBlocks threat).filter fun c =>
    fl.is_current_risk_csg c && !fl.has_inactive_contingency_plan c

/-! ## Threat level accessors (system_model.Threat) -/

/-- The crash value for a Python attribute lookup that cannot succeed. -/
inductive PyCrash where
  | attributeError
deriving DecidableEq, Repr

/-- `Threat._likelihood_uri`: `value(uriref, has_prior)`. -/
def threatLikelihoodUri (sys : Graph) (u : String) : Option String :=
  sys.value u predHasPrior

/-- `Threat._risk_uri`: `value(uriref, has_risk)`. -/
def threatRiskUri (sys : Graph) (u : String) : Option String :=
  sys.value u predHasRisk

/-- `Threat.likelihood_level_number`: `-1` when no `has_prior` triple exists;
otherwise the code calls `domain_model.level_number(...)`, a method that is
not defined on `DomainModel` in src, so the call raises `AttributeError`
(embedded as `.error`). -/
def threatLikelihoodLevelNumber (sys : Graph) (u : String) : Except PyCrash Int :=
  match threatLikelihoodUri sys u with
  | none => .ok (-1)
  | some _ => .error .attributeError

/-- `Threat.likelihood_level_label`: the string `"N/A"` when no `has_prior`
triple exists, else `label_uri` (a domain-graph label lookup, `None`-able). -/
def threatLikelihoodLevelLabel (sys dom : Graph) (u : String) : Option String :=
  match threatLikelihoodUri sys u with
  | none => some "N/A"
  | some uri => dom.value uri predLabel

/-- `Threat.risk_level_number`: same shape as the likelihood accessor, keyed
on `has_risk`. -/
def threatRiskLevelNumber (sys : Graph) (u : String) : Except PyCrash Int :=
  match threatRiskUri sys u with
  | none => .ok (-1)
  | some _ => .error .attributeError

/-- `Threat.risk_level_label`: same shape as the likelihood accessor, keyed
on `has_risk`. -/
def threatRiskLevelLabel (sys dom : Graph) (u : String) : Option String :=
  match threatRiskUri sys u with
  | none => some "N/A"
  | some uri => dom.value uri predLabel

/-! ## Cached per-kind factories (functools.cache on the factory methods) -/

/-- A `functools.cache`-decorated factory method of one model instance: the
memo table maps the identifier argument to the object built on first call;
a hit returns the stored object untouched. -/
def cachedFactory {α : Type} (mk : String → α) (cache : List (String × α))
    (u : String) : α × List (String × α) :=
  match alookup cache u with
  | some a => (a, cache)
  | none => (mk u, (u, mk u) :: cache)

/-- A domain `Asset` wrapper object (`Asset(uriref, self)` holds the
identifier; the owning model is fixed by the cache it lives in). -/
structure DomAsset where
  uriref : String
deriving DecidableEq, Repr

/-- A system `Asset` wrapper object. -/
structure SysAsset where
  uriref : String
deriving DecidableEq, Repr

/-- `DomainModel.asset(uriref)` with its `@cache` memo table made explicit. -/
def domainAssetFactory (cache : List (String × DomAsset)) (u : String) :
    DomAsset × List (String × DomAsset) :=
  cachedFactory (fun v => ⟨v⟩) cache u

/-- `SystemModel.asset(uriref)` with its `@cache` memo table made explicit. -/
def systemAssetFactory (cache : List (String × SysAsset)) (u : String) :
    SysAsset × List (String × SysAsset) :=
  cachedFactory (fun v => ⟨v⟩) cache u

/-! ## Concrete inputs used by the claims -/

/-- The mismatched-key construction input of `test_mismatched_keys`
(counts side). -/
def c1Counts : List (String × Int) :=
  [("Very Low", 800), ("Low", 50), ("Medium", 25), ("Very High", 5)]

/-- The mismatched-key construction input of `test_mismatched_keys`
(ranks side, missing "Very High"). -/
def c1Ranks : List (String × Int) :=
  [("Very Low", 0), ("Low", 1), ("Medium", 2)]

/-- A vector whose count at the lowest-ranked level is smaller but whose
count at a higher level is larger. -/
def rvLowSmall : RiskVector :=
  mkRiskVector [("A", 0), ("B", 1)] [("A", 0), ("B", 1)]

/-- The opposite vector: larger at the lowest-ranked level, smaller above. -/
def rvLowBig : RiskVector :=
  mkRiskVector [("A", 1), ("B", 0)] [("A", 0), ("B", 1)]

/-- The claim's reading of `_compare`: scan the merged levels in ascending
rank order and decide at the FIRST level where the counts differ; false
when no level differs. -/
def claimFirstDiffScan (a b : RiskVector) (gt : Bool) :
    List (String × Int) → Bool
  | [] => false
  | kv :: rest =>
    let sv := dictGet a.risk_dict kv.1 0
    let ov := dictGet b.risk_dict kv.1 0
    if sv ≠ ov then (if gt then sv > ov else sv < ov : Bool)
    else claimFirstDiffScan a b gt rest

/-- The claim's comparison: first-difference decision over the rank-sorted
merged levels. -/
def claimFirstDiffCompare (a b : RiskVector) (gt : Bool) : Bool :=
  claimFirstDiffScan a b gt (sortAscByValue (mergeDicts a.risk_levels b.risk_levels))

/-- The overall-level example of the claim: counts `{Low:50, Medium:20,
VeryLow:800}` with ranks `{VeryLow:0, Low:1, Medium:2}`. -/
def rvOverall : RiskVector :=
  mkRiskVector [("Low", 50), ("Medium", 20), ("VeryLow", 800)]
    [("VeryLow", 0), ("Low", 1), ("Medium", 2)]

/-- The threat-comment example of the claim. -/
def exComment : String := "The \"A:B\" device fails: it stops working"

/-- A one-triple domain graph giving a threat the example comment. -/
def exDomainGraph : Graph :=
  ⟨[⟨"http://ex/threat1", predComment, exComment⟩]⟩

/-- A one-triple system graph giving a threat the example comment. -/
def exSystemGraph : Graph :=
  ⟨[⟨"http://ex/threat1", predComment, exComment⟩]⟩

/-- The claim's asset identifier with a fragment after the last path
segment. -/
def exAssetUriref : String :=
  "http://it-innovation.soton.ac.uk/ontologies/trustworthiness/domain#NetworkRouter"

/-- A system graph in which one control strategy `blocks` one threat. -/
def exCsgGraph : Graph :=
  ⟨[⟨"http://ex/csg1", predBlocks, "http://ex/threat1"⟩]⟩

/-- Flags making `csg1` a current-risk strategy (with no inactive
contingency plan) that is not flagged for future risk. -/
def exCsgFlags : CsgFlags :=
  ⟨fun _ => false, fun _ => true, fun _ => false⟩

/-- A system graph recording domain version "2.0". -/
def exSysGraph : Graph :=
  ⟨[⟨"http://ex/system", predType, owlOntology⟩,
    ⟨"http://ex/system", predDomainVersion, "2.0"⟩]⟩

/-- A domain graph whose version info is "1.0". -/
def exDomGraph : Graph :=
  ⟨[⟨"http://ex/domain", predType, owlOntology⟩,
    ⟨"http://ex/domain", predVersionInfo, "1.0"⟩]⟩

/-- A system graph typing one identifier as a threat. -/
def exDispatchGraph : Graph :=
  ⟨[⟨"http://ex/t1", predType, objThreat⟩]⟩

/-! ## Helper lemmas: the stable value sorts -/

theorem mem_insDesc (x p : String × Int) (l : List (String × Int)) :
    p ∈ insDesc x l ↔ p = x ∨ p ∈ l := by
  induction l with
  | nil => simp [insDesc]
  | cons y ys ih =>
    by_cases h : x.2 > y.2
    · simp [insDesc, h]
    · simp [insDesc, h, ih]
      tauto

theorem mem_sortDescByValue (p : String × Int) (l : List (String × Int)) :
    p ∈ sortDescByValue l ↔ p ∈ l := by
  induction l with
  | nil => simp [sortDescByValue]
  | cons x xs ih =>
    simp only [sortDescByValue, List.foldr_cons] at *
    rw [mem_insDesc, ih, List.mem_cons]

theorem insDesc_ne_nil (x : String × Int) (l : List (String × Int)) :
    insDesc x l ≠ [] := by
  cases l with
  | nil => simp [insDesc]
  | cons y ys =>
    by_cases h : x.2 > y.2 <;> simp [insDesc, h]

theorem sortDescByValue_head_max (l : List (String × Int)) (hd : String × Int)
    (tl : List (String × Int)) (h : sortDescByValue l = hd :: tl) :
    hd ∈ l ∧ ∀ p ∈ l, p.2 ≤ hd.2 := by
  induction l generalizing hd tl with
  | nil => simp [sortDescByValue] at h
  | cons x xs ih =>
    simp only [sortDescByValue, List.foldr_cons] at h ih
    cases hs : xs.foldr insDesc [] with
    | nil =>
      rw [hs] at h
      simp [insDesc] at h
      refine ⟨by simp [h.1], ?_⟩
      intro p hp
      rcases List.mem_cons.mp hp with hp | hp
      · simp [hp, h.1]
      · have : p ∈ xs.foldr insDesc [] := by
          have := (mem_sortDescByValue p xs)
          simp only [sortDescByValue] at this
          exact this.mpr hp
        rw [hs] at this
        simp at this
    | cons y ys =>
      obtain ⟨hy, hymax⟩ := ih y ys hs
      rw [hs] at h
      by_cases hx : x.2 > y.2
      · simp only [insDesc, if_pos hx] at h
        obtain ⟨h1, _⟩ := List.cons.injEq .. ▸ h
        replace h1 : hd = x := by
          have := h
          injection this with ha hb
          exact ha.symm
        subst h1
        refine ⟨List.mem_cons_self .., ?_⟩
        intro p hp
        rcases List.mem_cons.mp hp with hp | hp
        · simp [hp]
        · exact le_of_lt (lt_of_le_of_lt (hymax p hp) hx)
      · simp only [insDesc, if_neg hx] at h
        injection h with ha _
        subst ha
        refine ⟨List.mem_cons_of_mem _ hy, ?_⟩
        intro p hp
        rcases List.mem_cons.mp hp with hp | hp
        · subst hp
          exact le_of_not_lt hx
        · exact hymax p hp

theorem any_insAsc (x : String × Int) (l : List (String × Int))
    (f : String × Int → Bool) :
    (insAsc x l).any f = (f x || l.any f) := by
  induction l with
  | nil => simp [insAsc]
  | cons y ys ih =>
    by_cases h : x.2 < y.2
    · simp [insAsc, h]
    · simp only [insAsc, if_neg h, List.any_cons, ih]
      rw [← Bool.or_assoc, Bool.or_comm (f y) (f x), Bool.or_assoc]

theorem any_sortAscByValue (l : List (String × Int)) (f : String × Int → Bool) :
    (sortAscByValue l).any f = l.any f := by
  induction l with
  | nil => rfl
  | cons x xs ih =>
    simp only [sortAscByValue, List.foldr_cons] at *
    rw [any_insAsc, ih, List.any_cons]

/-! ## Helper lemmas: the _compare scan -/

theorem compareScan_gt_any (a b : RiskVector) (l : List (String × Int)) :
    compareScan a b "gt" l =
      l.any fun kv => decide (dictGet a.risk_dict kv.1 0 > dictGet b.risk_dict kv.1 0) := by
  induction l with
  | nil => rfl
  | cons kv rest ih =>
    show (if ("gt" : String) = "gt" ∧ _ > _ then true
          else if ("gt" : String) = "lt" ∧ _ < _ then true
          else compareScan a b "gt" rest) = _
    by_cases h : dictGet a.risk_dict kv.1 0 > dictGet b.risk_dict kv.1 0
    · rw [if_pos ⟨rfl, h⟩]
      simp [h]
    · rw [if_neg (fun hc => h hc.2), if_neg (fun hc => absurd hc.1 (by decide))]
      simp [h, ih]

theorem compareScan_lt_any (a b : RiskVector) (l : List (String × Int)) :
    compareScan a b "lt" l =
      l.any fun kv => decide (dictGet a.risk_dict kv.1 0 < dictGet b.risk_dict kv.1 0) := by
  induction l with
  | nil => rfl
  | cons kv rest ih =>
    show (if ("lt" : String) = "gt" ∧ _ > _ then true
          else if ("lt" : String) = "lt" ∧ _ < _ then true
          else compareScan a b "lt" rest) = _
    rw [if_neg (fun hc => absurd hc.1 (by decide))]
    by_cases h : dictGet a.risk_dict kv.1 0 < dictGet b.risk_dict kv.1 0
    · rw [if_pos ⟨rfl, h⟩]
      simp [h]
    · rw [if_neg (fun hc => h hc.2)]
      simp [h, ih]

/-! ## Claim C1 -/

/-- C1: the claim says constructing a `RiskVector` from count/rank mappings
with different key sets fails with `KeyMismatchError`.  The code performs no
key-set check at all: at the exact input of `test_mismatched_keys` (counts
over Very Low/Low/Medium/Very High, ranks missing Very High) construction
succeeds and the mismatched vector — counting a "Very High" level that has
no rank — is returned to the caller, although the unit test demands a
`ValueError`. -/
theorem risk_vector_no_key_check :
    mkRiskVector c1Counts c1Ranks =
      ⟨c1Counts, c1Ranks, [("Medium", 2), ("Low", 1), ("Very Low", 0)]⟩
    ∧ alookup (mkRiskVector c1Counts c1Ranks).risk_dict "Very High" = some 5
    ∧ alookup (mkRiskVector c1Counts c1Ranks).risk_levels "Very High" = none :=
  ⟨rfl, rfl, rfl⟩

/-! ## Claim C2 -/

/-- C2 counterexample: with equal rank maps `{A:0, B:1}`, counts `{A:0, B:1}`
versus `{A:1, B:0}`, the first level at which the counts differ is `A` (the
lowest rank) where the first vector's count is smaller, so the claim says
`greater_than` returns false; the code returns true (it keeps scanning and
accepts level `B`), and `less_than` returns true for the same pair as well. -/
theorem risk_compare_not_first_difference :
    RiskVector.gtB rvLowSmall rvLowBig = true
    ∧ claimFirstDiffCompare rvLowSmall rvLowBig true = false
    ∧ RiskVector.ltB rvLowSmall rvLowBig = true :=
  ⟨rfl, rfl, rfl⟩

/-- C2 amended: `greater_than` (resp. `less_than`) returns true exactly when
SOME key of the merged rank map has `a.count > b.count` (resp. `<`), missing
keys counting as 0 — the scan does not stop at the first level where the
counts differ; consequently vectors with equal counts (in particular equal
vectors) make both comparisons return false. -/
theorem risk_compare_some_level (a b : RiskVector) :
    (RiskVector.gtB a b =
      (mergeDicts a.risk_levels b.risk_levels).any
        fun kv => decide (dictGet a.risk_dict kv.1 0 > dictGet b.risk_dict kv.1 0))
    ∧ (RiskVector.ltB a b =
      (mergeDicts a.risk_levels b.risk_levels).any
        fun kv => decide (dictGet a.risk_dict kv.1 0 < dictGet b.risk_dict kv.1 0))
    ∧ ((∀ k, alookup a.risk_dict k = alookup b.risk_dict k) →
        RiskVector.gtB a b = false ∧ RiskVector.ltB a b = false) := by
  have hgt : RiskVector.gtB a b =
      (mergeDicts a.risk_levels b.risk_levels).any
        fun kv => decide (dictGet a.risk_dict kv.1 0 > dictGet b.risk_dict kv.1 0) := by
    rw [RiskVector.gtB, RiskVector.compareOp, compareScan_gt_any, any_sortAscByValue]
  have hlt : RiskVector.ltB a b =
      (mergeDicts a.risk_levels b.risk_levels).any
        fun kv => decide (dictGet a.risk_dict kv.1 0 < dictGet b.risk_dict kv.1 0) := by
    rw [RiskVector.ltB, RiskVector.compareOp, compareScan_lt_any, any_sortAscByValue]
  refine ⟨hgt, hlt, fun h => ⟨?_, ?_⟩⟩
  · rw [hgt]
    simp only [List.any_eq_false]
    intro kv _
    simp [dictGet, h kv.1]
  · rw [hlt]
    simp only [List.any_eq_false]
    intro kv _
    simp [dictGet, h kv.1]

/-- C2 witness: two equal vectors compare neither greater nor less. -/
theorem risk_compare_some_level_witness :
    RiskVector.gtB rvOverall rvOverall = false
    ∧ RiskVector.ltB rvOverall rvOverall = false :=
  (risk_compare_some_level rvOverall rvOverall).2.2 fun _ => rfl

/-! ## Claim C3 -/

theorem normaliseDict_eq (l : List (String × Int)) : normaliseDict l = l := by
  simp [normaliseDict]

/-- C3: `overall_level` is the absent value exactly on an empty rank map;
otherwise it is the key at the head of the descending rank sort, which
belongs to the rank map and whose rank is maximal among all its entries,
regardless of counts. -/
theorem overall_level_highest_rank (cnts rks : List (String × Int)) :
    ((mkRiskVector cnts rks).overall_level = none ↔ rks = [])
    ∧ ∀ hd, (sortDescByValue rks).head? = some hd →
        (mkRiskVector cnts rks).overall_level = some hd.1
        ∧ hd ∈ rks ∧ ∀ p ∈ rks, p.2 ≤ hd.2 := by
  constructor
  · simp only [mkRiskVector, RiskVector.overall_level, normaliseDict_eq]
    cases hs : sortDescByValue rks with
    | nil =>
      cases rks with
      | nil => simp
      | cons x xs =>
        exact absurd hs (by simp only [sortDescByValue, List.foldr_cons]
                            exact insDesc_ne_nil x _)
    | cons hd tl =>
      cases rks with
      | nil => simp [sortDescByValue] at hs
      | cons x xs => simp [hs]
  · intro hd hh
    cases hs : sortDescByValue rks with
    | nil => rw [hs] at hh; simp at hh
    | cons hd' tl =>
      rw [hs] at hh
      simp only [List.head?_cons, Option.some.injEq] at hh
      subst hh
      obtain ⟨hmem, hmax⟩ := sortDescByValue_head_max rks hd' tl hs
      refine ⟨?_, hmem, hmax⟩
      have hne : rks ≠ [] := by
        intro h
        subst h
        simp [sortDescByValue] at hs
      simp only [mkRiskVector, RiskVector.overall_level, normaliseDict_eq, hs]
      cases rks with
      | nil => exact absurd rfl hne
      | cons x xs => simp

/-- C3 witness: on the claim's example (counts Low:50, Medium:20,
VeryLow:800; ranks VeryLow:0, Low:1, Medium:2) the overall level is
Medium, the key of highest rank. -/
theorem overall_level_highest_rank_witness :
    RiskVector.overall_level rvOverall = some "Medium" :=
  ((overall_level_highest_rank [("Low", 50), ("Medium", 20), ("VeryLow", 800)]
      [("VeryLow", 0), ("Low", 1), ("Medium", 2)]).2 ("Medium", 2) rfl).1

/-! ## Claim C4 -/

/-- C4: when the system graph's recorded `domain_version` differs from the
attached domain model's `version_info`, construction fails with the
version-mismatch error (a kind distinct from the dispatch failure) and
never returns a model. -/
theorem domain_version_gate (sys dom : Graph)
    (h : systemDomainVersion sys ≠ domainVersionInfo dom) :
    mkSystemModel sys dom =
      .error (.domainVersionMismatch (systemDomainVersion sys) (domainVersionInfo dom))
    ∧ (∀ m, mkSystemModel sys dom ≠ .ok m)
    ∧ (∀ e f u, SpyError.domainVersionMismatch e f ≠ SpyError.unknownEntity u) := by
  have h' : domainVersionInfo dom ≠ systemDomainVersion sys := Ne.symm h
  have hcdm : checkDomainMatch sys dom =
      .error (.domainVersionMismatch (systemDomainVersion sys) (domainVersionInfo dom)) := by
    rw [checkDomainMatch, if_pos h']
  refine ⟨?_, ?_, ?_⟩
  · rw [mkSystemModel, hcdm]
  · intro m hm
    rw [mkSystemModel, hcdm] at hm
    exact Except.noConfusion hm
  · intro e f u hu
    exact SpyError.noConfusion hu

/-- C4 witness: a system graph recording domain version "2.0" attached to a
domain model of version "1.0" fails construction with the mismatch error. -/
theorem domain_version_gate_witness :
    mkSystemModel exSysGraph exDomGraph =
      .error (.domainVersionMismatch (systemDomainVersion exSysGraph)
        (domainVersionInfo exDomGraph)) :=
  (domain_version_gate exSysGraph exDomGraph (by decide)).1

/-! ## Claim C5 -/

/-- C5: `get_entity` tests type membership in the fixed order
MisbehaviourSet, Threat, CardinalityConstraint, ControlStrategy,
TrustworthinessAttributeSet, ControlSet, returns the wrapper of the first
matching kind, and when none matches resolves the declared type: an Asset
wrapper exactly when `DomainModel.is_asset` accepts it, else the
unknown-entity failure. -/
theorem get_entity_dispatch_order (sys dom : Graph) (u : String) :
    (sys.mem3 u predType objMisbehaviourSet = true →
      getEntity sys dom u = .ok (.misbehaviourSet u))
    ∧ (sys.mem3 u predType objMisbehaviourSet = false →
       sys.mem3 u predType objThreat = true →
      getEntity sys dom u = .ok (.threat u))
    ∧ (sys.mem3 u predType objMisbehaviourSet = false →
       sys.mem3 u predType objThreat = false →
       sys.mem3 u predType objCardinalityConstraint = true →
      getEntity sys dom u = .ok (.relation u))
    ∧ (sys.mem3 u predType objMisbehaviourSet = false →
       sys.mem3 u predType objThreat = false →
       sys.mem3 u predType objCardinalityConstraint = false →
       sys.mem3 u predType objControlStrategy = true →
      getEntity sys dom u = .ok (.controlStrategy u))
    ∧ (sys.mem3 u predType objMisbehaviourSet = false →
       sys.mem3 u predType objThreat = false →
       sys.mem3 u predType objCardinalityConstraint = false →
       sys.mem3 u predType objControlStrategy = false →
       sys.mem3 u predType objTrustworthinessAttributeSet = true →
      getEntity sys dom u = .ok (.trustworthinessAttributeSet u))
    ∧ (sys.mem3 u predType objMisbehaviourSet = false →
       sys.mem3 u predType objThreat = false →
       sys.mem3 u predType objCardinalityConstraint = false →
       sys.mem3 u predType objControlStrategy = false →
       sys.mem3 u predType objTrustworthinessAttributeSet = false →
       sys.mem3 u predType objControlSet = true →
      getEntity sys dom u = .ok (.controlSet u))
    ∧ (sys.mem3 u predType objMisbehaviourSet = false →
       sys.mem3 u predType objThreat = false →
       sys.mem3 u predType objCardinalityConstraint = false →
       sys.mem3 u predType objControlStrategy = false →
       sys.mem3 u predType objTrustworthinessAttributeSet = false →
       sys.mem3 u predType objControlSet = false →
       isAssetOpt dom (sys.objects u predType).head? = true →
      getEntity sys dom u = .ok (.asset u))
    ∧ (sys.mem3 u predType objMisbehaviourSet = false →
       sys.mem3 u predType objThreat = false →
       sys.mem3 u predType objCardinalityConstraint = false →
       sys.mem3 u predType objControlStrategy = false →
       sys.mem3 u predType objTrustworthinessAttributeSet = false →
       sys.mem3 u predType objControlSet = false →
       isAssetOpt dom (sys.objects u predType).head? = false →
      getEntity sys dom u = .error (.unknownEntity u)) := by
  refine ⟨?_, ?_, ?_, ?_, ?_, ?_, ?_, ?_⟩ <;> intros <;> simp [getEntity, *]

/-- C5 witness: an identifier typed as a threat (and as nothing earlier in
the order) is dispatched to a Threat wrapper. -/
theorem get_entity_dispatch_order_witness :
    getEntity exDispatchGraph ⟨[]⟩ "http://ex/t1" = .ok (.threat "http://ex/t1") :=
  (get_entity_dispatch_order exDispatchGraph ⟨[]⟩ "http://ex/t1").2.1
    (by decide) (by decide)

/-! ## Claim C8 -/

/-- C8 counterexample: one strategy `blocks` the threat and is a
current-risk strategy without an inactive contingency plan (not flagged for
future risk).  The current-risk branch of the claim selects it, yet with
`future_risk` unset the code returns the empty list: the `elif` branch is
never evaluated because the `if` branch's condition already covers `None`. -/
theorem control_strategies_counterexample :
    controlStrategies exCsgGraph exCsgFlags "http://ex/threat1" none = []
    ∧ claimCurrentBranch exCsgGraph exCsgFlags "http://ex/threat1" = ["http://ex/csg1"]
    ∧ "http://ex/csg1" ∉ controlStrategies exCsgGraph exCsgFlags "http://ex/threat1" none := by
  refine ⟨rfl, rfl, by decide⟩

/-- C8 amended: with `future_risk` unset only the future-risk branch is
evaluated — the result equals the future-risk selection (union of `blocks`
and `mitigates` subjects filtered to future-risk strategies), identical to
an explicit `future_risk=True` call — while the current-risk selection is
produced only by an explicit `future_risk=False` call. -/
theorem control_strategies_default_future_only (sys : Graph) (fl : CsgFlags)
    (t : String) :
    controlStrategies sys fl t none = claimFutureBranch sys fl t
    ∧ controlStrategies sys fl t none = controlStrategies sys fl t (some true)
    ∧ controlStrategies sys fl t (some false) = claimCurrentBranch sys fl t := by
  refine ⟨?_, ?_, ?_⟩ <;>
    simp [controlStrategies, claimFutureBranch, claimCurrentBranch]

/-! ## Claim C9 -/

theorem cachedFactory_stable {α : Type} (mk : String → α)
    (c : List (String × α)) (u : String) :
    cachedFactory mk (cachedFactory mk c u).2 u = cachedFactory mk c u := by
  cases h : alookup c u with
  | some a => simp [cachedFactory, h]
  | none => simp [cachedFactory, h, alookup]

/-- C9: the per-kind cached factories are stable — calling the factory again
with the same identifier returns the very object stored by the first call
and leaves the memo table untouched (no second construction, no re-scan of
the graph), for any prior cache state of the owning model. -/
theorem factory_cache_identity (cd : List (String × DomAsset))
    (cs : List (String × SysAsset)) (u : String) :
    domainAssetFactory (domainAssetFactory cd u).2 u = domainAssetFactory cd u
    ∧ systemAssetFactory (systemAssetFactory cs u).2 u = systemAssetFactory cs u :=
  ⟨cachedFactory_stable _ cd u, cachedFactory_stable _ cs u⟩

/-! ## Claim C10 -/

/-- C10: with no `has_prior` triple, `likelihood_level_number` returns the
sentinel `-1` and `likelihood_level_label` the string `"N/A"` (values, not
failures or absent markers); the same convention holds for the risk-level
accessors when `has_risk` is absent. -/
theorem threat_level_sentinels (sys dom : Graph) (u : String) :
    (threatLikelihoodUri sys u = none →
      threatLikelihoodLevelNumber sys u = .ok (-1)
      ∧ threatLikelihoodLevelLabel sys dom u = some "N/A")
    ∧ (threatRiskUri sys u = none →
      threatRiskLevelNumber sys u = .ok (-1)
      ∧ threatRiskLevelLabel sys dom u = some "N/A") := by
  constructor <;> intro h <;>
    simp [threatLikelihoodLevelNumber, threatLikelihoodLevelLabel,
      threatRiskLevelNumber, threatRiskLevelLabel, h]

/-! ## Helper lemmas: the unquoted-colon scan -/

theorem okColonAt_cons (c : Char) (cs : List Char) (b : Bool) (j : Nat) :
    okColonAt (c :: cs) b (j + 1) = okColonAt cs (toggleQuote c b) j := by
  have hget : (c :: cs).get? (j + 1) = cs.get? j := rfl
  by_cases hq : c = '"'
  · subst hq
    have ht : toggleQuote '"' b = !b := by simp [toggleQuote]
    have hcount : (('"' :: cs.take j).count '"') = (cs.take j).count '"' + 1 := by
      simp [List.count_cons]
    rw [okColonAt, okColonAt, ht, hget, List.take_succ_cons, hcount]
    have hpar : (decide (((cs.take j).count '"' + 1) % 2 = 0))
        = !(decide ((cs.take j).count '"' % 2 = 0)) := by
      rw [← decide_not, decide_eq_decide]
      omega
    rw [hpar]
    cases hd : decide ((cs.take j).count '"' % 2 = 0) <;> cases b <;> rfl
  · have ht : toggleQuote c b = b := by simp [toggleQuote, hq]
    have hcount : ((c :: cs.take j).count '"') = (cs.take j).count '"' := by
      have : (('"' : Char) == c) = false := beq_eq_false_iff_ne.mpr (Ne.symm hq)
      simp [List.count_cons, this]
      exact hq
    rw [okColonAt, okColonAt, ht, hget, List.take_succ_cons, hcount]

theorem okColonAt_zero_false (c : Char) (cs : List Char) (b : Bool)
    (hc : ¬(c = ':' ∧ b = true)) : okColonAt (c :: cs) b 0 = false := by
  cases b with
  | false => simp [okColonAt]
  | true =>
    have hcne : c ≠ ':' := fun h => hc ⟨h, rfl⟩
    simp [okColonAt, hcne]

theorem scanAux_eq_some (cs : List Char) : ∀ (b : Bool) (k : Nat),
    scanAux b cs = some k →
    okColonAt cs b k = true ∧ ∀ j, j < k → okColonAt cs b j = false := by
  induction cs with
  | nil => intro b k h; simp [scanAux] at h
  | cons c cs ih =>
    intro b k h
    by_cases hc : c = ':' ∧ b = true
    · rw [scanAux, if_pos hc] at h
      injection h with h
      subst h
      obtain ⟨hc1, hb⟩ := hc
      subst hc1
      subst hb
      refine ⟨by simp [okColonAt], ?_⟩
      intro j hj
      omega
    · rw [scanAux, if_neg hc] at h
      cases hs : scanAux (toggleQuote c b) cs with
      | none => rw [hs] at h; simp at h
      | some k' =>
        rw [hs] at h
        simp only [Option.map_some'] at h
        injection h with h
        subst h
        obtain ⟨h1, h2⟩ := ih (toggleQuote c b) k' hs
        refine ⟨by rw [okColonAt_cons]; exact h1, ?_⟩
        intro j hj
        cases j with
        | zero => exact okColonAt_zero_false c cs b hc
        | succ j' =>
          rw [okColonAt_cons]
          exact h2 j' (by omega)

theorem scanAux_eq_none (cs : List Char) : ∀ (b : Bool),
    scanAux b cs = none → ∀ j, okColonAt cs b j = false := by
  induction cs with
  | nil => intro b _ j; simp [okColonAt]
  | cons c cs ih =>
    intro b h j
    by_cases hc : c = ':' ∧ b = true
    · rw [scanAux, if_pos hc] at h
      exact Option.noConfusion h
    · rw [scanAux, if_neg hc] at h
      cases hs : scanAux (toggleQuote c b) cs with
      | some k => rw [hs] at h; simp at h
      | none =>
        cases j with
        | zero => exact okColonAt_zero_false c cs b hc
        | succ j' =>
          rw [okColonAt_cons]
          exact ih (toggleQuote c b) hs j'

theorem find?_range_eq_some_of (p : Nat → Bool) (n k : Nat) (hk : k < n)
    (hpk : p k = true) (hmin : ∀ j, j < k → p j = false) :
    (List.range n).find? p = some k := by
  induction n with
  | zero => omega
  | succ n ihn =>
    rw [List.range_succ, List.find?_append]
    by_cases h : k < n
    · rw [ihn h]
      rfl
    · have hkn : k = n := by omega
      subst hkn
      have hnone : (List.range k).find? p = none := by
        rw [List.find?_eq_none]
        intro x hx
        simp [hmin x (List.mem_range.mp hx)]
      rw [hnone]
      simp [List.find?, hpk]

theorem scanAux_eq_firstUnquotedColon (cs : List Char) :
    scanAux true cs = firstUnquotedColon cs := by
  cases hs : scanAux true cs with
  | none =>
    rw [firstUnquotedColon]
    symm
    rw [List.find?_eq_none]
    intro j _
    simp [scanAux_eq_none cs true hs j]
  | some k =>
    obtain ⟨h1, h2⟩ := scanAux_eq_some cs true k hs
    have hklen : k < cs.length := by
      by_contra hk
      have hget : cs.get? k = none := List.get?_eq_none.mpr (by omega)
      rw [okColonAt, hget] at h1
      simp at h1
    rw [firstUnquotedColon]
    exact (find?_range_eq_some_of _ _ k hklen h1 h2).symm

/-! ## Claim C6 -/

/-- C6 counterexample: the quote-aware split the claim attributes to the
domain `Threat` is not what the domain accessors do — they split at the
very first colon, quoted or not.  On the claim's example comment the domain
`short_description` returns the quoted-colon prefix, not the claimed text. -/
theorem domain_split_counterexample :
    domainShortDescription exDomainGraph "http://ex/threat1" = some "The \"A"
    ∧ domainShortDescription exDomainGraph "http://ex/threat1"
        ≠ some "The \"A:B\" device fails"
    ∧ domainLongDescription exDomainGraph "http://ex/threat1"
        = some "B\" device fails: it stops working"
    ∧ domainLongDescription exDomainGraph "http://ex/threat1"
        ≠ some "It stops working" :=
  ⟨rfl, by decide, rfl, by decide⟩

/-- C6 amended: the first-unquoted-colon split (a colon is a split point
only when the number of double quotes before it is even) is performed by
the SYSTEM `Threat` accessors (`_get_threat_comment` and `description`):
the scan returns exactly the first index with an unquoted colon, the short
comment is the prefix before it, the description is the remainder after it
trimmed and first-uppercased, and the claim's example splits into
`The "A:B" device fails` / `It stops working`; the domain `Threat`
accessors split at the first colon regardless of quoting. -/
theorem threat_comment_unquoted_colon_split (s : String) :
    scanAux true s.data = firstUnquotedColon s.data
    ∧ getThreatComment s =
        (firstUnquotedColon s.data).map (fun k => String.mk (s.data.take k))
    ∧ descFromComment s =
        (firstUnquotedColon s.data).elim none
          (fun k => upperFirst (pyStrip (String.mk (s.data.drop (k + 1)))))
    ∧ threatCommentShort exSystemGraph "http://ex/threat1"
        = some "The \"A:B\" device fails"
    ∧ threatDescription exSystemGraph "http://ex/threat1"
        = some "It stops working" := by
  have he := scanAux_eq_firstUnquotedColon s.data
  refine ⟨he, ?_, ?_, rfl, rfl⟩
  · rw [getThreatComment, he]
  · cases hf : firstUnquotedColon s.data with
    | none =>
      have hsc : scanAux true s.data = none := he.trans hf
      simp [descFromComment, hsc, hf]
    | some k =>
      have hsc : scanAux true s.data = some k := he.trans hf
      simp [descFromComment, hsc, hf]

/-! ## Claim C7 -/

theorem takeWhile_ne_slash (l1 l2 : List Char) (h1 : ∀ c ∈ l1, c ≠ '/') :
    (l1 ++ '/' :: l2).takeWhile (fun c => c ≠ '/') = l1 := by
  induction l1 with
  | nil => simp
  | cons a l1 ih =>
    have ha : a ≠ '/' := h1 a (List.mem_cons_self ..)
    rw [List.cons_append, List.takeWhile_cons, if_pos (decide_eq_true ha),
      ih fun c hc => h1 c (List.mem_cons_of_mem _ hc)]

/-- C7 counterexample: the claim says the no-label fallback on identifier
`.../domain#NetworkRouter` yields `NetworkRouter`; the code splits the
identifier on `/` only, so the fragment separator stays in the last
segment and the label is `domain#NetworkRouter`. -/
theorem asset_label_counterexample :
    assetLabel ⟨[]⟩ exAssetUriref = "domain#NetworkRouter"
    ∧ ("domain#NetworkRouter" : String) ≠ "NetworkRouter" :=
  ⟨by decide, by decide⟩

/-- C7 amended: with no (non-empty) label triple, `Asset.label` falls back
to the characters of the identifier after its LAST slash — for an
identifier whose final slash-separated segment is `seg`, the label is
`seg`, so `.../domain#NetworkRouter` gives `domain#NetworkRouter` (the
`#` fragment does not start a new segment). -/
theorem asset_label_fallback (dom : Graph) (u : String)
    (h : domainEntityLabel dom u = none) :
    assetLabel dom u = lastSegment u
    ∧ ∀ (l r : List Char), u.data = l ++ '/' :: r → (∀ c ∈ r, c ≠ '/') →
        assetLabel dom u = String.mk r := by
  have hlab : assetLabel dom u = lastSegment u := by
    rw [assetLabel, h]
  refine ⟨hlab, ?_⟩
  intro l r hu hr
  rw [hlab]
  simp only [lastSegment, hu, List.reverse_append, List.reverse_cons,
    List.append_assoc]
  show String.mk ((r.reverse ++ '/' :: l.reverse).takeWhile fun c => c ≠ '/').reverse
      = String.mk r
  rw [takeWhile_ne_slash r.reverse l.reverse
      fun c hc => hr c (List.mem_reverse.mp hc),
    List.reverse_reverse]

/-- C7 witness: an identifier whose last slash-separated segment is
`NetworkRouter` does get label `NetworkRouter` from the fallback. -/
theorem asset_label_fallback_witness :
    assetLabel ⟨[]⟩ "a/NetworkRouter" = String.mk "NetworkRouter".data
    ∧ String.mk "NetworkRouter".data = "NetworkRouter" :=
  ⟨(asset_label_fallback ⟨[]⟩ "a/NetworkRouter" rfl).2 "a".data
      "NetworkRouter".data (by decide) (by decide),
   by decide⟩

/-- C10 witness: a threat with no likelihood and no risk triple reports the
sentinels. -/
theorem threat_level_sentinels_witness :
    (threatLikelihoodLevelNumber ⟨[]⟩ "http://ex/t" = .ok (-1)
      ∧ threatLikelihoodLevelLabel ⟨[]⟩ ⟨[]⟩ "http://ex/t" = some "N/A")
    ∧ (threatRiskLevelNumber ⟨[]⟩ "http://ex/t" = .ok (-1)
      ∧ threatRiskLevelLabel ⟨[]⟩ ⟨[]⟩ "http://ex/t" = some "N/A") :=
  ⟨(threat_level_sentinels ⟨[]⟩ ⟨[]⟩ "http://ex/t").1 rfl,
   (threat_level_sentinels ⟨[]⟩ ⟨[]⟩ "http://ex/t").2 rfl⟩

end Spyderisk
